import Mathlib

/-!
Shallow embedding of the kiss3d rendering engine core (camera, framebuffer
manager, scene graph, window orchestration) together with proofs of the
behavioural properties stated in its design specification.

Machine `f32` scalars are modelled by `ℚ`; transcendental operations
(acos, atan2, sin, cos, vector normalisation, matrix algebra) that have no
exact rational counterpart are abstracted as parameters, since the
properties proved here do not depend on their numeric values.
GL handles (`GLuint`) are modelled by `ℕ`.
-/

namespace Kiss3d

/-! ## Framebuffers manager (src/resources/framebuffers_manager.rs) -/

/-- A graphics-API call issued by the framebuffer manager while selecting a
render target: a framebuffer bind, a color-attachment bind, or a
depth-attachment bind. -/
inductive GLCall where
  | bindFramebuffer (fbo : ℕ)
  | attachColor (tex : ℕ)
  | attachDepth (tex : ℕ)
deriving DecidableEq, Repr

/-- Recognizes framebuffer-bind calls. -/
def GLCall.isBindFramebuffer : GLCall → Bool
  | .bindFramebuffer _ => true
  | _ => false

/-- Recognizes color-attachment bind calls. -/
def GLCall.isAttachColor : GLCall → Bool
  | .attachColor _ => true
  | _ => false

/-- Recognizes depth-attachment bind calls. -/
def GLCall.isAttachDepth : GLCall → Bool
  | .attachDepth _ => true
  | _ => false

/-- The state of FramebuffersManager: the currently bound framebuffer,
color attachment and depth attachment handles, plus the manager's own
offscreen framebuffer object. -/
structure FBM where
  curr_fbo : ℕ
  curr_color : ℕ
  curr_depth : ℕ
  fbo : ℕ
deriving DecidableEq, Repr

/-- RenderTarget: the screen or an offscreen color+depth texture pair. -/
inductive RenderTarget where
  | screen
  | offscreen (texture : ℕ) (depth : ℕ)
deriving DecidableEq, Repr

/-- FramebuffersManager::do_select: binds the given framebuffer object only
when it is not the currently bound one; returns the new state and the list
of GL calls issued. -/
def FBM.do_select (m : FBM) (fbo : ℕ) : FBM × List GLCall :=
  if m.curr_fbo ≠ fbo then
    ({ m with curr_fbo := fbo }, [GLCall.bindFramebuffer fbo])
  else
    (m, [])

/-- The color-attachment block of FramebuffersManager::select: rebind the
color attachment only when its handle differs from the remembered one. -/
def FBM.selectColor (m : FBM) (tex : ℕ) : FBM × List GLCall :=
  if m.curr_color ≠ tex then
    ({ m with curr_color := tex }, [GLCall.attachColor tex])
  else (m, [])

/-- The depth-attachment block of FramebuffersManager::select: rebind the
depth attachment only when its handle differs from the remembered one. -/
def FBM.selectDepth (m : FBM) (dep : ℕ) : FBM × List GLCall :=
  if m.curr_depth ≠ dep then
    ({ m with curr_depth := dep }, [GLCall.attachDepth dep])
  else (m, [])

/-- FramebuffersManager::select: for Screen, binds framebuffer 0 (if needed)
and resets the remembered attachment handles to 0; for Offscreen, binds the
manager's fbo (if needed), then rebinds the color and depth attachments,
each only when its handle differs from the remembered one. Returns the new
state and the GL calls issued, in order. -/
def FBM.select (m : FBM) (t : RenderTarget) : FBM × List GLCall :=
  match t with
  | .screen =>
      let r := m.do_select 0
      ({ r.1 with curr_color := 0, curr_depth := 0 }, r.2)
  | .offscreen tex dep =>
      let r1 := m.do_select m.fbo
      let r2 := r1.1.selectColor tex
      let r3 := r2.1.selectDepth dep
      (r3.1, r1.2 ++ r2.2 ++ r3.2)

/-! ## Scene-graph removal (src/window.rs, src/object.rs) -/

/-- A scene-graph Object: `alloc` is the identity of its reference-counted
data allocation (Eq on Object is borrow::ref_eq on that allocation);
`fields` stands for the value content of the data block (transform, color,
visibility, ...), irrelevant to equality. -/
structure Object where
  alloc : ℕ
  fields : ℕ
deriving DecidableEq, Repr

/-- impl Eq for Object: identity of the backing data allocation. -/
def Object.refEq (a b : Object) : Bool :=
  a.alloc == b.alloc

/-- Iterator::rposition: index (from the front) of the last element
satisfying the predicate. -/
def rpositionIdx (p : α → Bool) : List α → Option ℕ
  | [] => none
  | a :: l =>
      match rpositionIdx p l with
      | some i => some (i + 1)
      | none => if p a then some 0 else none

/-- Vec::swap_remove(i): overwrite position `i` with the last element, then
drop the last element. -/
def swapRemove (l : List α) (i : ℕ) : List α :=
  match l.getLast? with
  | none => l
  | some a => (l.set i a).dropLast

/-- Window::remove: finds (via rposition) an entry reference-equal to `o`
and removes it by swap_remove; does nothing when no entry matches. -/
def removeObj (o : Object) (objects : List Object) : List Object :=
  match rpositionIdx (fun e => o.refEq e) objects with
  | some i => swapRemove objects i
  | none => objects

/-- Index (from the front) of the first element satisfying the
predicate. -/
def fpositionIdx (p : α → Bool) : List α → Option ℕ
  | [] => none
  | a :: l => if p a then some 0 else (fpositionIdx p l).map (· + 1)

/-- Modelled from the spec: removal of the FIRST entry reference-equal to
`o`, by swap-with-last-element, as the claim words it ("removes ... the
first scene-graph entry that is reference-equal to o"). -/
def removeObjFirstSpec (o : Object) (objects : List Object) : List Object :=
  match fpositionIdx (fun e => o.refEq e) objects with
  | some i => swapRemove objects i
  | none => objects

/-! ## Frame-rate cap (src/window.rs) -/

/-- Window::set_framerate_limit: `Some fps` becomes a per-frame budget of
`1000 / fps` milliseconds (fps ≠ 0 is asserted by the source); `None`
removes the cap. -/
def set_framerate_limit (fps : Option ℕ) : Option ℕ :=
  fps.map (fun f => 1000 / f)

/-- The frame-throttle step at the end of Window::draw: with no cap, never
sleep; with a cap of `ms` milliseconds, compute the elapsed milliseconds
since the previous frame (nanosecond difference divided by 1000000) and
sleep `ms - elapsed` exactly when `elapsed < ms`. Returns the sleep
duration, `none` meaning no sleep. -/
def frame_sleep (max_ms_per_frame : Option ℕ) (now curr : ℕ) : Option ℕ :=
  match max_ms_per_frame with
  | none => none
  | some ms =>
      let elapsed := (now - curr) / 1000000
      if elapsed < ms then some (ms - elapsed) else none

/-! ## Geometry registry and Window::add_obj (src/window.rs) -/

/-- An Object as produced by Window::add_obj: a fresh reference-counted
data block plus a shared reference to a Mesh allocation. Allocations are
named by ℕ handles. -/
structure LoadedObject where
  dataAlloc : ℕ
  mesh : ℕ
deriving DecidableEq, Repr

/-- The slice of Window state that add_obj touches: the path-keyed geometry
registry, the scene-graph list, a fresh-allocation counter, and an
instrumentation counter of obj::parse_file invocations. -/
structure GeomWindow where
  geometries : List (String × ℕ)
  objects : List LoadedObject
  nextAlloc : ℕ
  loadCount : ℕ
deriving DecidableEq, Repr

/-- HashMap::find on the path-keyed geometry registry. -/
def GeomWindow.findGeom (w : GeomWindow) (path : String) : Option ℕ :=
  (w.geometries.find? (fun kv => kv.1 == path)).map (fun kv => kv.2)

/-- Window::add_obj: looks the path up in the geometry registry; on a miss
it invokes the mesh loader (obj::parse_file), wraps the result in a fresh
reference-counted allocation and inserts it; either way it builds a new
Object around the (shared) mesh, pushes a clone of it onto the scene graph
and returns it. -/
def GeomWindow.add_obj (w : GeomWindow) (path : String) :
    LoadedObject × GeomWindow :=
  let (insert, meshAlloc, w1) :=
    match w.findGeom path with
    | some m => (false, m, w)
    | none =>
        (true, w.nextAlloc,
          { w with nextAlloc := w.nextAlloc + 1, loadCount := w.loadCount + 1 })
  let w2 :=
    if insert then
      { w1 with geometries := (path, meshAlloc) :: w1.geometries }
    else w1
  let res : LoadedObject := { dataAlloc := w2.nextAlloc, mesh := meshAlloc }
  let w3 := { w2 with nextAlloc := w2.nextAlloc + 1, objects := w2.objects ++ [res] }
  (res, w3)

/-! ## Window::add_quad mesh construction (src/window.rs) -/

/-- A vertex position (Vec3 of f32, modelled over ℚ). -/
structure V3 where
  x : ℚ
  y : ℚ
  z : ℚ
deriving DecidableEq, Repr

/-- A texture coordinate (Vec2 of f32, modelled over ℚ). -/
structure V2 where
  x : ℚ
  y : ℚ
deriving DecidableEq, Repr

/-- A triangle of vertex indices (Vec3 of GLuint). -/
structure Tri where
  a : ℕ
  b : ℕ
  c : ℕ
deriving DecidableEq, Repr

/-- The mesh data Window::add_quad passes to Mesh::new. -/
structure QuadMesh where
  vertices : List V3
  triangles : List Tri
  normals : List V3
  tex_coords : List V2
deriving DecidableEq, Repr

/-- The down-left triangle of grid cell (i, j) in add_quad. -/
def dl_triangle (i j ws : ℕ) : Tri :=
  { a := (i + 1) * ws + j, b := i * ws + j, c := (i + 1) * ws + j + 1 }

/-- The up-right triangle of grid cell (i, j) in add_quad. -/
def ur_triangle (i j ws : ℕ) : Tri :=
  { a := i * ws + j, b := i * ws + (j + 1), c := (i + 1) * ws + j + 1 }

/-- The mesh built by Window::add_quad: one vertex (with texture
coordinate and constant normal) per grid node, and two triangles per grid
cell, in the push order of the source loops. -/
def add_quad_mesh (w h : ℚ) (wsubdivs hsubdivs : ℕ) : QuadMesh :=
  let wstep := w / (wsubdivs : ℚ)
  let hstep := h / (hsubdivs : ℚ)
  let wtexstep := 1 / (wsubdivs : ℚ)
  let htexstep := 1 / (hsubdivs : ℚ)
  let cw := w / 2
  let ch := h / 2
  let vertices :=
    (List.range (hsubdivs + 1)).flatMap (fun (i : ℕ) =>
      (List.range (wsubdivs + 1)).map (fun (j : ℕ) =>
        ({ x := (j : ℚ) * wstep - cw, y := (i : ℚ) * hstep - ch, z := 0 } : V3)))
  let tex_coords :=
    (List.range (hsubdivs + 1)).flatMap (fun (i : ℕ) =>
      (List.range (wsubdivs + 1)).map (fun (j : ℕ) =>
        ({ x := 1 - (j : ℚ) * wtexstep, y := 1 - (i : ℚ) * htexstep } : V2)))
  let normals :=
    List.replicate ((hsubdivs + 1) * (wsubdivs + 1))
      ({ x := 1, y := 0, z := 0 } : V3)
  let triangles :=
    (List.range hsubdivs).flatMap (fun i =>
      (List.range wsubdivs).flatMap (fun j =>
        [dl_triangle i j (wsubdivs + 1), ur_triangle i j (wsubdivs + 1)]))
  { vertices := vertices, triangles := triangles,
    normals := normals, tex_coords := tex_coords }

/-! ## First-person camera (src/camera/first_person.rs)

The camera state machine is embedded with `ℚ` scalars.  The matrix type
`M` (Mat4 of f32), the isometry type `I` (Iso3 of f32) and the
transcendental and linear-algebra primitives acting on them are
parameters gathered in `MathPrims`: the properties proved below (pitch
clamping, cache-recompute counting, absence of clamping in look_at_z) hold
for every interpretation of these primitives. -/

/-- Exact componentwise ℚ operations on Vec3 (f32 vector arithmetic). -/
def V3.sub (a b : V3) : V3 :=
  { x := a.x - b.x, y := a.y - b.y, z := a.z - b.z }

/-- Componentwise vector addition. -/
def V3.add (a b : V3) : V3 :=
  { x := a.x + b.x, y := a.y + b.y, z := a.z + b.z }

/-- Scaling of a vector by a scalar (v * c in the source). -/
def V3.smul (a : V3) (c : ℚ) : V3 :=
  { x := a.x * c, y := a.y * c, z := a.z * c }

/-- na::cross. -/
def V3.cross (a b : V3) : V3 :=
  { x := a.y * b.z - a.z * b.y,
    y := a.z * b.x - a.x * b.z,
    z := a.x * b.y - a.y * b.x }

/-- Componentwise Vec2 subtraction. -/
def V2.sub (a b : V2) : V2 :=
  { x := a.x - b.x, y := a.y - b.y }

/-- The transcendental / linear-algebra primitives the camera consumes,
abstracted over the matrix type `M` and the isometry type `I`:
`acos`, `atan2`, `cos`, `sin`, vector norm and normalisation, the
look-at isometry, rotation of a vector by an isometry,
Mat4::new_perspective, the product projection * to_homogeneous(inv(view))
computed by update_projviews, and na::inv on Mat4. -/
structure MathPrims (M I : Type) where
  acos : ℚ → ℚ
  atan2 : ℚ → ℚ → ℚ
  cos : ℚ → ℚ
  sin : ℚ → ℚ
  norm : V3 → ℚ
  normalize : V3 → V3
  lookAtZIso : V3 → V3 → V3 → I
  rotate : I → V3 → V3
  newPerspective : ℚ → ℚ → ℚ → ℚ → ℚ → M
  projTimesInvView : M → I → M
  matInv : M → M

/-- The f32 value of Real::pi() used by update_restrictions, as an exact
rational (the IEEE-754 single nearest to π). -/
def pi32 : ℚ := 13176795 / 4194304

/-- FirstPerson camera state.  `nProjviewUpdates` instruments the embedding:
it counts the calls to update_projviews, i.e. the recomputations of the
cached view-projection matrix and its inverse. -/
structure FirstPerson (M I : Type) where
  eye : V3
  yaw : ℚ
  pitch : ℚ
  yaw_step : ℚ
  pitch_step : ℚ
  move_step : ℚ
  fov : ℚ
  znear : ℚ
  zfar : ℚ
  projection : M
  proj_view : M
  inv_proj_view : M
  last_cursor_pos : V2
  nProjviewUpdates : ℕ

/-- FirstPerson::at: the point the camera looks at. -/
def FirstPerson.atPoint (P : MathPrims M I) (s : FirstPerson M I) : V3 :=
  { x := s.eye.x + P.cos s.yaw * P.sin s.pitch,
    y := s.eye.y + P.cos s.pitch,
    z := s.eye.z + P.sin s.yaw * P.sin s.pitch }

/-- Camera::view_transform for FirstPerson: the look-at isometry from the
eye towards the at-point with world up (0,1,0). -/
def FirstPerson.view_transform (P : MathPrims M I) (s : FirstPerson M I) : I :=
  P.lookAtZIso s.eye (s.atPoint P) { x := 0, y := 1, z := 0 }

/-- FirstPerson::update_projviews: recomputes the cached view-projection
matrix and its inverse (and bumps the instrumentation counter). -/
def FirstPerson.update_projviews (P : MathPrims M I) (s : FirstPerson M I) :
    FirstPerson M I :=
  let pv := P.projTimesInvView s.projection (s.view_transform P)
  { s with proj_view := pv, inv_proj_view := P.matInv pv,
           nProjviewUpdates := s.nProjviewUpdates + 1 }

/-- The two guarded assignments of FirstPerson::update_restrictions on the
pitch value: a pitch ≤ 0.0001 is set to 0.0001, then a pitch > π − 0.0001
is set to π − 0.0001. -/
def clampPitch (p : ℚ) : ℚ :=
  let p1 := if p ≤ 0.0001 then (0.0001 : ℚ) else p
  if p1 > pi32 - 0.0001 then pi32 - 0.0001 else p1

/-- FirstPerson::update_restrictions: clamp the pitch. -/
def FirstPerson.update_restrictions (s : FirstPerson M I) : FirstPerson M I :=
  { s with pitch := clampPitch s.pitch }

/-- FirstPerson::look_at_z: orients the camera towards `at_`; the pitch and
yaw are assigned directly from acos/atan2 and update_projviews follows
(no call to update_restrictions). -/
def FirstPerson.look_at_z (P : MathPrims M I) (s : FirstPerson M I)
    (eye at_ : V3) : FirstPerson M I :=
  let dist := P.norm (V3.sub eye at_)
  let pitch := P.acos ((at_.y - eye.y) / dist)
  let yaw := P.atan2 (at_.z - eye.z) (at_.x - eye.x)
  FirstPerson.update_projviews P { s with eye := eye, yaw := yaw, pitch := pitch }

/-- FirstPerson::handle_left_button_displacement: yaw += dx·yaw_step,
pitch += dy·pitch_step, then clamp and recompute the cache. -/
def FirstPerson.handle_left_button_displacement (P : MathPrims M I)
    (s : FirstPerson M I) (dpos : V2) : FirstPerson M I :=
  FirstPerson.update_projviews P
    (FirstPerson.update_restrictions
      { s with yaw := s.yaw + dpos.x * s.yaw_step,
               pitch := s.pitch + dpos.y * s.pitch_step })

/-- FirstPerson::handle_right_button_displacement: translate the eye on the
plane orthogonal to the view direction, then clamp and recompute. -/
def FirstPerson.handle_right_button_displacement (P : MathPrims M I)
    (s : FirstPerson M I) (dpos : V2) : FirstPerson M I :=
  let at_ := s.atPoint P
  let dir := P.normalize (V3.sub at_ s.eye)
  let tangent := P.normalize (V3.cross { x := 0, y := 1, z := 0 } dir)
  let bitangent := V3.cross dir tangent
  let eye := V3.add (V3.add s.eye (tangent.smul (0.01 * dpos.x / 10)))
    (bitangent.smul (0.01 * dpos.y / 10))
  FirstPerson.update_projviews P
    (FirstPerson.update_restrictions { s with eye := eye })

/-- FirstPerson::handle_scroll: translate the eye along the view direction,
then clamp and recompute. -/
def FirstPerson.handle_scroll (P : MathPrims M I) (s : FirstPerson M I)
    (yoff : ℚ) : FirstPerson M I :=
  let front := P.rotate (s.view_transform P) { x := 0, y := 0, z := 1 }
  FirstPerson.update_projviews P
    (FirstPerson.update_restrictions
      { s with eye := V3.add s.eye (front.smul (s.move_step * yoff)) })

/-- The continuously-polled device state the camera reads: mouse buttons
(for handle_event on cursor moves) and arrow keys (for update). -/
structure DeviceState where
  leftMousePressed : Bool
  rightMousePressed : Bool
  keyUpPressed : Bool
  keyDownPressed : Bool
  keyRightPressed : Bool
  keyLeftPressed : Bool
deriving DecidableEq, Repr

/-- Camera::update for FirstPerson: translate the eye along the view-local
front/right axes for each arrow key currently held, then clamp and
recompute. -/
def FirstPerson.update (P : MathPrims M I) (s : FirstPerson M I)
    (dev : DeviceState) : FirstPerson M I :=
  let t := s.view_transform P
  let front := P.rotate t { x := 0, y := 0, z := 1 }
  let right := P.rotate t { x := 1, y := 0, z := 0 }
  let e1 := if dev.keyUpPressed then V3.add s.eye (front.smul s.move_step) else s.eye
  let e2 := if dev.keyDownPressed then V3.add e1 (front.smul (-s.move_step)) else e1
  let e3 := if dev.keyRightPressed then V3.add e2 (right.smul (-s.move_step)) else e2
  let e4 := if dev.keyLeftPressed then V3.add e3 (right.smul s.move_step) else e3
  FirstPerson.update_projviews P
    (FirstPerson.update_restrictions { s with eye := e4 })

/-- A GLFW key: the escape key or any other key code. -/
inductive Key where
  | escape
  | other (code : ℕ)
deriving DecidableEq, Repr

/-- The event::Event tagged union. -/
inductive Event where
  | cursorPos (x y : ℚ)
  | scroll (x y : ℚ)
  | keyPressed (k : Key)
  | keyReleased (k : Key)
  | buttonPressed (button mods : ℕ)
  | buttonReleased (button mods : ℕ)
  | framebufferSize (w h : ℚ)
deriving DecidableEq, Repr

/-- Camera::handle_event for FirstPerson: cursor moves become left/right
drags depending on the polled mouse-button state, scrolls become zooms,
framebuffer resizes rebuild the projection matrix and recompute the cache,
all other events are ignored. -/
def FirstPerson.handle_event (P : MathPrims M I) (s : FirstPerson M I)
    (dev : DeviceState) (e : Event) : FirstPerson M I :=
  match e with
  | .cursorPos x y =>
      let curr_pos : V2 := { x := x, y := y }
      let s1 :=
        if dev.leftMousePressed then
          s.handle_left_button_displacement P (V2.sub curr_pos s.last_cursor_pos)
        else s
      let s2 :=
        if dev.rightMousePressed then
          s1.handle_right_button_displacement P (V2.sub curr_pos s1.last_cursor_pos)
        else s1
      { s2 with last_cursor_pos := curr_pos }
  | .scroll _ off => s.handle_scroll P off
  | .framebufferSize w h =>
      FirstPerson.update_projviews P
        { s with projection := P.newPerspective w h s.fov s.znear s.zfar }
  | _ => s

/-- Camera::clip_planes for FirstPerson (non-mutating query). -/
def FirstPerson.clip_planes (s : FirstPerson M I) : ℚ × ℚ :=
  (s.znear, s.zfar)

/-- Camera::transformation for FirstPerson: returns the cached
view-projection matrix (non-mutating query). -/
def FirstPerson.transformation (s : FirstPerson M I) : M :=
  s.proj_view

/-- Camera::inv_transformation for FirstPerson: returns the cached inverse
(non-mutating query). -/
def FirstPerson.inv_transformation (s : FirstPerson M I) : M :=
  s.inv_proj_view

/-- Camera::eye for FirstPerson (non-mutating query). -/
def FirstPerson.eyeQuery (s : FirstPerson M I) : V3 :=
  s.eye

/-- The operations of the FirstPerson camera API: the six mutating
operations named by the specification and the six non-mutating queries.
Queries take the state by immutable borrow in the source; applying one
leaves the state unchanged (their return values are the query functions
above). -/
inductive CamOp where
  | lookAtZ (eye at_ : V3)
  | leftDrag (dpos : V2)
  | rightDrag (dpos : V2)
  | scrollOp (yoff : ℚ)
  | frameUpdate (dev : DeviceState)
  | resizeEvent (w h : ℚ)
  | queryTransformation
  | queryInvTransformation
  | queryEye
  | queryClipPlanes
  | queryAt
  | queryViewTransform

/-- Whether a camera operation mutates the camera. -/
def CamOp.isMutating : CamOp → Bool
  | .lookAtZ _ _ => true
  | .leftDrag _ => true
  | .rightDrag _ => true
  | .scrollOp _ => true
  | .frameUpdate _ => true
  | .resizeEvent _ _ => true
  | _ => false

/-- Applies a camera operation to the camera state.  The resize event runs
through the full handle_event dispatch; the queries read the state through
an immutable borrow and leave it unchanged. -/
def applyCamOp (P : MathPrims M I) (o : CamOp) (s : FirstPerson M I) :
    FirstPerson M I :=
  match o with
  | .lookAtZ eye at_ => s.look_at_z P eye at_
  | .leftDrag dpos => s.handle_left_button_displacement P dpos
  | .rightDrag dpos => s.handle_right_button_displacement P dpos
  | .scrollOp yoff => s.handle_scroll P yoff
  | .frameUpdate dev => s.update P dev
  | .resizeEvent w h =>
      s.handle_event P
        { leftMousePressed := false, rightMousePressed := false,
          keyUpPressed := false, keyDownPressed := false,
          keyRightPressed := false, keyLeftPressed := false }
        (Event.framebufferSize w h)
  | _ => s

/-! ## Window::poll_events (src/window.rs)

The Window slice that poll_events touches: the queued events, the close
flag, the active camera (abstract type `C`, handled through its
handle_event function `camH`), and the viewport / render-target geometry
updated by update_viewport.  The user event handler may mutate the window,
so it is a function Window → Event → Window × Bool. -/

/-- The Window state poll_events operates on. -/
structure PollWindow (C : Type) where
  events : List Event
  should_close : Bool
  camera : C
  scissor : ℚ × ℚ
  viewport : ℚ × ℚ
  target_size : ℚ × ℚ
deriving DecidableEq, Repr

/-- Window::update_viewport: gl::Scissor over the new rectangle, resize of
the screen target (gl::Viewport), and resize of the post-processing
offscreen target (its storage is reallocated at the new dimensions). -/
def PollWindow.update_viewport (w : PollWindow C) (a b : ℚ) : PollWindow C :=
  { w with scissor := (a, b), viewport := (a, b), target_size := (a, b) }

/-- The body of the poll_events loop for one queued event: run the user
handler; if it proceeds, apply default handling — an escape key release
requests window close and (continue) skips the camera — otherwise forward
the event to the camera after any default handling. -/
def pollEventsStep (handler : PollWindow C → Event → PollWindow C × Bool)
    (camH : C → Event → C) (acc : PollWindow C) (e : Event) : PollWindow C :=
  let (w1, proceed) := handler acc e
  if proceed then
    match e with
    | .keyReleased k =>
        if k = Key.escape then { w1 with should_close := true }
        else { w1 with camera := camH w1.camera e }
    | .framebufferSize a b =>
        let w2 := w1.update_viewport a b
        { w2 with camera := camH w2.camera e }
    | _ => { w1 with camera := camH w1.camera e }
  else w1

/-- Window::poll_events: drain the queued events in order through
pollEventsStep, then clear the event queue. -/
def poll_events (handler : PollWindow C → Event → PollWindow C × Bool)
    (camH : C → Event → C) (w : PollWindow C) : PollWindow C :=
  let w1 := w.events.foldl (pollEventsStep handler camH) w
  { w1 with events := [] }

/-- Modelled from the spec (the claim as stated): for every event the
handler lets proceed, apply default handling and then forward that same
event to the camera — including the escape release. -/
def pollEventsClaimStep (handler : PollWindow C → Event → PollWindow C × Bool)
    (camH : C → Event → C) (acc : PollWindow C) (e : Event) : PollWindow C :=
  let (w1, proceed) := handler acc e
  if proceed then
    let w2 :=
      match e with
      | .keyReleased k =>
          if k = Key.escape then { w1 with should_close := true } else w1
      | .framebufferSize a b => w1.update_viewport a b
      | _ => w1
    { w2 with camera := camH w2.camera e }
  else w1

/-- Modelled from the spec (the claim as stated): poll_events as the claim
describes it, forwarding every proceeding event to the camera. -/
def poll_events_claimed (handler : PollWindow C → Event → PollWindow C × Bool)
    (camH : C → Event → C) (w : PollWindow C) : PollWindow C :=
  let w1 := w.events.foldl (pollEventsClaimStep handler camH) w
  { w1 with events := [] }

/-- The amended per-event behaviour: a proceeding escape release only
requests window close (it is not forwarded to the camera); a proceeding
resize performs the viewport/target resize and is then forwarded; every
other proceeding event is forwarded. -/
def pollEventsAmendedStep (handler : PollWindow C → Event → PollWindow C × Bool)
    (camH : C → Event → C) (acc : PollWindow C) (e : Event) : PollWindow C :=
  let (w1, proceed) := handler acc e
  if proceed then
    match e with
    | .keyReleased Key.escape => { w1 with should_close := true }
    | .framebufferSize a b =>
        { w1.update_viewport a b with
          camera := camH (w1.update_viewport a b).camera e }
    | _ => { w1 with camera := camH w1.camera e }
  else w1

/-- The amended poll_events: drain with the amended per-event behaviour,
then clear the queue. -/
def poll_events_amended (handler : PollWindow C → Event → PollWindow C × Bool)
    (camH : C → Event → C) (w : PollWindow C) : PollWindow C :=
  { w.events.foldl (pollEventsAmendedStep handler camH) w with events := [] }

/-! ## Concrete instantiations used to evaluate the model -/

/-- A trivial interpretation of the abstract math primitives over the unit
matrix and isometry types; the clamp and counting properties do not depend
on the interpretation. -/
def trivPrims : MathPrims Unit Unit :=
  { acos := fun _ => 0, atan2 := fun _ _ => 0,
    cos := fun _ => 0, sin := fun _ => 0,
    norm := fun _ => 0, normalize := fun _ => { x := 0, y := 0, z := 0 },
    lookAtZIso := fun _ _ _ => (),
    rotate := fun _ _ => { x := 0, y := 0, z := 0 },
    newPerspective := fun _ _ _ _ _ => (),
    projTimesInvView := fun _ _ => (), matInv := fun _ => () }

/-- An interpretation whose norm of the unit down vector is 1 and whose
acos vanishes at 1 — as the real functions do on those inputs. -/
def unitPrims : MathPrims Unit Unit :=
  { acos := fun _ => 0, atan2 := fun _ _ => 0,
    cos := fun _ => 0, sin := fun _ => 0,
    norm := fun _ => 1, normalize := fun _ => { x := 0, y := 0, z := 0 },
    lookAtZIso := fun _ _ _ => (),
    rotate := fun _ _ => { x := 0, y := 0, z := 0 },
    newPerspective := fun _ _ _ _ _ => (),
    projTimesInvView := fun _ _ => (), matInv := fun _ => () }

/-- A concrete first-person camera state (default sensitivity values of the
source, pitch 1). -/
def demoCam : FirstPerson Unit Unit :=
  { eye := { x := 0, y := 0, z := 0 }, yaw := 0, pitch := 1,
    yaw_step := 0.005, pitch_step := 0.005, move_step := 0.5,
    fov := 0.785, znear := 0.1, zfar := 1024,
    projection := (), proj_view := (), inv_proj_view := (),
    last_cursor_pos := { x := 0, y := 0 }, nProjviewUpdates := 0 }

/-- A concrete window holding one queued escape-release event, with a
counting camera. -/
def c4Window : PollWindow ℕ :=
  { events := [Event.keyReleased Key.escape], should_close := false,
    camera := 0, scissor := (0, 0), viewport := (0, 0), target_size := (0, 0) }

/-! ## Theorems -/

/-- do_select always leaves the manager remembering the requested
framebuffer. -/
theorem do_select_state (m : FBM) (fbo : ℕ) :
    (m.do_select fbo).1 = { m with curr_fbo := fbo } := by
  obtain ⟨cf, cc, cd, fb⟩ := m
  unfold FBM.do_select
  split_ifs with h <;> simp_all [FBM.mk.injEq]

/-- The calls issued by do_select. -/
theorem do_select_calls (m : FBM) (fbo : ℕ) :
    (m.do_select fbo).2 =
      if m.curr_fbo ≠ fbo then [GLCall.bindFramebuffer fbo] else [] := by
  unfold FBM.do_select
  split_ifs <;> rfl

/-- The color block always leaves the manager remembering the requested
color attachment. -/
theorem selectColor_state (m : FBM) (tex : ℕ) :
    (m.selectColor tex).1 = { m with curr_color := tex } := by
  obtain ⟨cf, cc, cd, fb⟩ := m
  unfold FBM.selectColor
  split_ifs with h <;> simp_all [FBM.mk.injEq]

/-- The calls issued by the color block. -/
theorem selectColor_calls (m : FBM) (tex : ℕ) :
    (m.selectColor tex).2 =
      if m.curr_color ≠ tex then [GLCall.attachColor tex] else [] := by
  unfold FBM.selectColor
  split_ifs <;> rfl

/-- The depth block always leaves the manager remembering the requested
depth attachment. -/
theorem selectDepth_state (m : FBM) (dep : ℕ) :
    (m.selectDepth dep).1 = { m with curr_depth := dep } := by
  obtain ⟨cf, cc, cd, fb⟩ := m
  unfold FBM.selectDepth
  split_ifs with h <;> simp_all [FBM.mk.injEq]

/-- The calls issued by the depth block. -/
theorem selectDepth_calls (m : FBM) (dep : ℕ) :
    (m.selectDepth dep).2 =
      if m.curr_depth ≠ dep then [GLCall.attachDepth dep] else [] := by
  unfold FBM.selectDepth
  split_ifs <;> rfl

/-- After selecting the screen, the manager remembers framebuffer 0 and
attachment handles 0; its own fbo handle is untouched. -/
theorem select_screen_state (m : FBM) :
    (m.select RenderTarget.screen).1 =
      { curr_fbo := 0, curr_color := 0, curr_depth := 0, fbo := m.fbo } := by
  show ({ (m.do_select 0).1 with curr_color := 0, curr_depth := 0 } : FBM) = _
  rw [do_select_state]

/-- After selecting an offscreen target, the manager remembers its own fbo
and the target's attachment handles. -/
theorem select_offscreen_state (m : FBM) (tex dep : ℕ) :
    (m.select (RenderTarget.offscreen tex dep)).1 =
      { curr_fbo := m.fbo, curr_color := tex, curr_depth := dep,
        fbo := m.fbo } := by
  show (((m.do_select m.fbo).1.selectColor tex).1.selectDepth dep).1 = _
  rw [selectDepth_state, selectColor_state, do_select_state]

/-- The calls issued by one offscreen selection, as three independent
guards on the initial state. -/
theorem select_offscreen_calls (m : FBM) (tex dep : ℕ) :
    (m.select (RenderTarget.offscreen tex dep)).2 =
      (if m.curr_fbo ≠ m.fbo then [GLCall.bindFramebuffer m.fbo] else []) ++
      (if m.curr_color ≠ tex then [GLCall.attachColor tex] else []) ++
      (if m.curr_depth ≠ dep then [GLCall.attachDepth dep] else []) := by
  show (m.do_select m.fbo).2 ++ ((m.do_select m.fbo).1.selectColor tex).2 ++
      (((m.do_select m.fbo).1.selectColor tex).1.selectDepth dep).2 = _
  rw [selectDepth_calls, selectColor_calls, do_select_calls,
    selectColor_state, do_select_state]

/-- The calls issued by one screen selection. -/
theorem select_screen_calls (m : FBM) :
    (m.select RenderTarget.screen).2 =
      if m.curr_fbo ≠ 0 then [GLCall.bindFramebuffer 0] else [] := by
  show (m.do_select 0).2 = _
  rw [do_select_calls]

/-- C3: FramebuffersManager::select is idempotent at the API-call level:
from any manager state and for any render target, selecting the target
twice in succession issues each of the three kinds of bind calls at most
once in total, and the second selection issues no graphics-API call at
all. -/
theorem c3_select_idempotent (m : FBM) (t : RenderTarget) :
    (((m.select t).1.select t).2 = []) ∧
    ((m.select t).2 ++ ((m.select t).1.select t).2).countP
      GLCall.isBindFramebuffer ≤ 1 ∧
    ((m.select t).2 ++ ((m.select t).1.select t).2).countP
      GLCall.isAttachColor ≤ 1 ∧
    ((m.select t).2 ++ ((m.select t).1.select t).2).countP
      GLCall.isAttachDepth ≤ 1 := by
  have hsecond : ((m.select t).1.select t).2 = [] := by
    cases t with
    | screen => rw [select_screen_calls, select_screen_state]; simp
    | offscreen tex dep =>
        rw [select_offscreen_calls, select_offscreen_state]; simp
  have hfirst : (m.select t).2.countP GLCall.isBindFramebuffer ≤ 1 ∧
      (m.select t).2.countP GLCall.isAttachColor ≤ 1 ∧
      (m.select t).2.countP GLCall.isAttachDepth ≤ 1 := by
    cases t with
    | screen =>
        rw [select_screen_calls]
        split_ifs <;>
          simp [List.countP_cons, List.countP_nil, GLCall.isBindFramebuffer,
            GLCall.isAttachColor, GLCall.isAttachDepth]
    | offscreen tex dep =>
        rw [select_offscreen_calls]
        split_ifs <;>
          simp [List.countP_append, List.countP_cons, List.countP_nil,
            GLCall.isBindFramebuffer, GLCall.isAttachColor,
            GLCall.isAttachDepth]
  refine ⟨hsecond, ?_, ?_, ?_⟩ <;> rw [hsecond, List.append_nil]
  · exact hfirst.1
  · exact hfirst.2.1
  · exact hfirst.2.2

/-- C10: selecting the screen resets the remembered attachment handles to
0, so after select(offscreen t); select(screen); select(offscreen t) the
third selection re-issues both the color and the depth attachment bind
even though the target's (nonzero, GL-generated) handles never changed. -/
theorem c10_screen_reset_forces_rebind (m : FBM) (tex dep : ℕ)
    (htex : tex ≠ 0) (hdep : dep ≠ 0) :
    ((((m.select (RenderTarget.offscreen tex dep)).1.select
        RenderTarget.screen).1.select (RenderTarget.offscreen tex dep)).2.countP
      GLCall.isAttachColor = 1) ∧
    ((((m.select (RenderTarget.offscreen tex dep)).1.select
        RenderTarget.screen).1.select (RenderTarget.offscreen tex dep)).2.countP
      GLCall.isAttachDepth = 1) := by
  rw [select_offscreen_calls, select_screen_state, select_offscreen_state]
  have htex0 : (0 : ℕ) ≠ tex := fun h => htex h.symm
  have hdep0 : (0 : ℕ) ≠ dep := fun h => hdep h.symm
  split_ifs <;>
    simp_all [List.countP_append, List.countP_cons, List.countP_nil,
      GLCall.isBindFramebuffer, GLCall.isAttachColor, GLCall.isAttachDepth]

/-- C10 witness: a concrete run from the initial manager state with
attachment handles 1 and 2. -/
theorem c10_screen_reset_forces_rebind_witness :
    (1 : ℕ) ≠ 0 ∧ (2 : ℕ) ≠ 0 ∧
    (((({ curr_fbo := 0, curr_color := 0, curr_depth := 0, fbo := 7 } :
          FBM).select (RenderTarget.offscreen 1 2)).1.select
        RenderTarget.screen).1.select (RenderTarget.offscreen 1 2)).2.countP
      GLCall.isAttachColor = 1 := by
  refine ⟨by decide, by decide, ?_⟩
  exact (c10_screen_reset_forces_rebind
    { curr_fbo := 0, curr_color := 0, curr_depth := 0, fbo := 7 } 1 2
    (by decide) (by decide)).1

/-- When no element satisfies the predicate, rposition finds nothing. -/
theorem rpositionIdx_eq_none_of_countP {p : α → Bool} {l : List α}
    (h : l.countP p = 0) : rpositionIdx p l = none := by
  induction l with
  | nil => rfl
  | cons a l ih =>
      rw [List.countP_cons] at h
      cases hpa : p a with
      | true => rw [hpa, if_pos rfl] at h; omega
      | false =>
          rw [hpa, if_neg Bool.false_ne_true, Nat.add_zero] at h
          simp [rpositionIdx, ih h, hpa]

/-- With at most one match, the last matching index is the first matching
index. -/
theorem rpositionIdx_eq_fpositionIdx {p : α → Bool} {l : List α}
    (h : l.countP p ≤ 1) : rpositionIdx p l = fpositionIdx p l := by
  induction l with
  | nil => rfl
  | cons a l ih =>
      rw [List.countP_cons] at h
      cases hpa : p a with
      | true =>
          have h0 : l.countP p = 0 := by rw [hpa, if_pos rfl] at h; omega
          simp [rpositionIdx, fpositionIdx, hpa,
            rpositionIdx_eq_none_of_countP h0]
      | false =>
          have h1 : l.countP p ≤ 1 := by
            rw [hpa, if_neg Bool.false_ne_true, Nat.add_zero] at h; exact h
          rw [fpositionIdx]
          simp only [rpositionIdx, ih h1, hpa]
          cases fpositionIdx p l <;> simp

/-- C5 (amended): Window::remove deletes, via swap-with-last-element, the
LAST scene-graph entry reference-equal to `o` (rposition); when at most one
entry is reference-equal to `o` — the invariant maintained by the add_*
constructors, which always push a freshly allocated Object — this is the
unique matching entry and coincides with removing the first one, leaving
every other entry (including value-equal entries of distinct identity)
untouched; when no entry matches, the scene graph is unchanged. -/
theorem c5_remove_unique_identity (o : Object) (objects : List Object) :
    ((∀ e ∈ objects, o.refEq e = false) → removeObj o objects = objects) ∧
    (objects.countP (fun e => o.refEq e) ≤ 1 →
      removeObj o objects = removeObjFirstSpec o objects) := by
  constructor
  · intro h
    have h0 : objects.countP (fun e => o.refEq e) = 0 := by
      rw [List.countP_eq_zero]
      intro a ha
      simp [h a ha]
    rw [removeObj, rpositionIdx_eq_none_of_countP h0]
  · intro h
    rw [removeObj, removeObjFirstSpec, rpositionIdx_eq_fpositionIdx h]

/-- C5 witness: a scene with one matching entry (and a value-equal
duplicate of distinct identity) where remove behaves as the amended claim
states. -/
theorem c5_remove_unique_identity_witness :
    (({ alloc := 0, fields := 5 } : Object) ::
        ({ alloc := 1, fields := 5 } : Object) :: []).countP
      (fun e => Object.refEq { alloc := 0, fields := 5 } e) ≤ 1 ∧
    removeObj { alloc := 0, fields := 5 }
        [{ alloc := 0, fields := 5 }, { alloc := 1, fields := 5 }] =
      removeObjFirstSpec { alloc := 0, fields := 5 }
        [{ alloc := 0, fields := 5 }, { alloc := 1, fields := 5 }] := by
  refine ⟨by decide, ?_⟩
  exact (c5_remove_unique_identity { alloc := 0, fields := 5 }
    [{ alloc := 0, fields := 5 }, { alloc := 1, fields := 5 }]).2 (by decide)

/-- C5 counterexample: with two reference-equal entries in the scene list,
the code removes the LAST one (rposition), not the first: on
[a, x, a, y] with a the removed object, the code yields [a, x, y] while
removing the first matching entry by swap-with-last would yield
[y, x, a]. -/
theorem c5_remove_first_counterexample :
    removeObj { alloc := 0, fields := 5 }
        [{ alloc := 0, fields := 5 }, { alloc := 1, fields := 7 },
          { alloc := 0, fields := 5 }, { alloc := 2, fields := 9 }] =
      [{ alloc := 0, fields := 5 }, { alloc := 1, fields := 7 },
        { alloc := 2, fields := 9 }] ∧
    removeObjFirstSpec { alloc := 0, fields := 5 }
        [{ alloc := 0, fields := 5 }, { alloc := 1, fields := 7 },
          { alloc := 0, fields := 5 }, { alloc := 2, fields := 9 }] =
      [{ alloc := 2, fields := 9 }, { alloc := 1, fields := 7 },
        { alloc := 0, fields := 5 }] ∧
    removeObj { alloc := 0, fields := 5 }
        [{ alloc := 0, fields := 5 }, { alloc := 1, fields := 7 },
          { alloc := 0, fields := 5 }, { alloc := 2, fields := 9 }] ≠
      removeObjFirstSpec { alloc := 0, fields := 5 }
        [{ alloc := 0, fields := 5 }, { alloc := 1, fields := 7 },
          { alloc := 0, fields := 5 }, { alloc := 2, fields := 9 }] := by
  refine ⟨by decide, by decide, by decide⟩

/-- C6: with a configured cap of 1000/fps milliseconds, each frame sleeps
capMillis − elapsedMillis exactly when that difference is positive and
does not sleep otherwise; with no cap, no sleep ever occurs. (`curr ≤ now`
reflects the monotone nanosecond clock the source subtracts in u64.) -/
theorem c6_frame_sleep (f now curr : ℕ) (hf : 0 < f) (hc : curr ≤ now) :
    set_framerate_limit none = none ∧
    frame_sleep none now curr = none ∧
    set_framerate_limit (some f) = some (1000 / f) ∧
    (((0 : ℤ) < ((1000 / f : ℕ) : ℤ) - (((now - curr) / 1000000 : ℕ) : ℤ)) →
      frame_sleep (some (1000 / f)) now curr =
        some (1000 / f - (now - curr) / 1000000)) ∧
    ((((1000 / f : ℕ) : ℤ) - (((now - curr) / 1000000 : ℕ) : ℤ) ≤ 0) →
      frame_sleep (some (1000 / f)) now curr = none) := by
  refine ⟨rfl, rfl, rfl, ?_, ?_⟩
  · intro h
    have hlt : (now - curr) / 1000000 < 1000 / f := by omega
    simp [frame_sleep, hlt]
  · intro h
    have hge : ¬ ((now - curr) / 1000000 < 1000 / f) := by omega
    simp [frame_sleep, hge]

/-- C6 witness: the spec's own example — a 50 fps cap (20 ms budget) and a
5 ms frame sleeps 15 ms. -/
theorem c6_frame_sleep_witness :
    0 < 50 ∧ (0 : ℤ) < ((1000 / 50 : ℕ) : ℤ) -
      (((5000000 - 0) / 1000000 : ℕ) : ℤ) ∧
    frame_sleep (some 20) 5000000 0 = some 15 := by
  refine ⟨by norm_num, by norm_num, ?_⟩
  have h := (c6_frame_sleep 50 5000000 0 (by norm_num) (by norm_num)).2.2.2.1
    (by norm_num)
  simpa using h

/-- Looking up a path that heads the registry succeeds with its mesh. -/
theorem findGeom_cons_self (g : List (String × ℕ)) (objs : List LoadedObject)
    (na lc m : ℕ) (path : String) :
    ({ geometries := (path, m) :: g, objects := objs, nextAlloc := na,
        loadCount := lc } : GeomWindow).findGeom path = some m := by
  unfold GeomWindow.findGeom
  rw [List.find?_cons_of_pos]
  · rfl
  · simp

/-- A cache hit in add_obj: no loader call, no fresh mesh allocation; the
returned Object wraps the cached mesh. -/
theorem add_obj_hit (w : GeomWindow) (path : String) (m : ℕ)
    (h : w.findGeom path = some m) :
    w.add_obj path =
      ({ dataAlloc := w.nextAlloc, mesh := m },
        { w with nextAlloc := w.nextAlloc + 1,
                 objects := w.objects ++ [{ dataAlloc := w.nextAlloc, mesh := m }] }) := by
  unfold GeomWindow.add_obj
  rw [h]
  rfl

/-- A cache miss in add_obj: one loader call, a fresh mesh allocation
registered under the path, and an Object wrapping it. -/
theorem add_obj_miss (w : GeomWindow) (path : String)
    (h : w.findGeom path = none) :
    w.add_obj path =
      ({ dataAlloc := w.nextAlloc + 1, mesh := w.nextAlloc },
        { geometries := (path, w.nextAlloc) :: w.geometries,
          objects := w.objects ++
            [{ dataAlloc := w.nextAlloc + 1, mesh := w.nextAlloc }],
          nextAlloc := w.nextAlloc + 2,
          loadCount := w.loadCount + 1 }) := by
  unfold GeomWindow.add_obj
  rw [h]
  rfl

/-- C7: from a state whose geometry registry does not yet hold `path`,
calling add_obj twice with `path` invokes the mesh loader exactly once, and
the two returned Objects are distinct (fresh data allocations) yet share
one underlying Mesh allocation. -/
theorem c7_add_obj_cached (w : GeomWindow) (path : String)
    (h : w.findGeom path = none) :
    ((w.add_obj path).2.add_obj path).1.mesh = (w.add_obj path).1.mesh ∧
    ((w.add_obj path).2.add_obj path).2.loadCount = w.loadCount + 1 ∧
    ((w.add_obj path).2.add_obj path).1.dataAlloc ≠
      (w.add_obj path).1.dataAlloc := by
  rw [add_obj_miss w path h]
  rw [add_obj_hit _ path w.nextAlloc (findGeom_cons_self _ _ _ _ _ _)]
  refine ⟨rfl, rfl, ?_⟩
  simp

/-- C7 witness: a concrete empty registry loaded twice from one path. -/
theorem c7_add_obj_cached_witness :
    (({ geometries := [], objects := [], nextAlloc := 0, loadCount := 0 } :
        GeomWindow).findGeom "scene.obj" = none) ∧
    ((({ geometries := [], objects := [], nextAlloc := 0, loadCount := 0 } :
        GeomWindow).add_obj "scene.obj").2.add_obj "scene.obj").1.mesh =
      (({ geometries := [], objects := [], nextAlloc := 0, loadCount := 0 } :
        GeomWindow).add_obj "scene.obj").1.mesh := by
  refine ⟨rfl, ?_⟩
  exact (c7_add_obj_cached
    { geometries := [], objects := [], nextAlloc := 0, loadCount := 0 }
    "scene.obj" rfl).1

/-- Length of a flatMap over a range whose pieces have constant length. -/
theorem length_flatMap_range {α : Type} (n m : ℕ) (f : ℕ → List α)
    (h : ∀ i, (f i).length = m) :
    ((List.range n).flatMap f).length = n * m := by
  induction n with
  | zero => simp
  | succ k ih =>
      rw [List.range_succ, List.flatMap_append]
      simp [ih, h, Nat.succ_mul]

/-- C8: for every width, height and positive subdivision counts, add_quad
builds a mesh with (wsubdivs+1)·(hsubdivs+1) vertices and
2·wsubdivs·hsubdivs triangles. -/
theorem c8_add_quad_counts (w h : ℚ) (wsubdivs hsubdivs : ℕ)
    (hw : 0 < wsubdivs) (hh : 0 < hsubdivs) :
    (add_quad_mesh w h wsubdivs hsubdivs).vertices.length =
      (wsubdivs + 1) * (hsubdivs + 1) ∧
    (add_quad_mesh w h wsubdivs hsubdivs).triangles.length =
      2 * wsubdivs * hsubdivs := by
  constructor
  · have hv := length_flatMap_range (hsubdivs + 1) (wsubdivs + 1)
      (fun (i : ℕ) => (List.range (wsubdivs + 1)).map (fun (j : ℕ) =>
        ({ x := (j : ℚ) * (w / (wsubdivs : ℚ)) - w / 2,
           y := (i : ℚ) * (h / (hsubdivs : ℚ)) - h / 2, z := 0 } : V3)))
      (fun i => by rw [List.length_map, List.length_range])
    calc (add_quad_mesh w h wsubdivs hsubdivs).vertices.length
        = (hsubdivs + 1) * (wsubdivs + 1) := hv
      _ = (wsubdivs + 1) * (hsubdivs + 1) := Nat.mul_comm _ _
  · have hin : ∀ i, ((List.range wsubdivs).flatMap (fun j =>
        [dl_triangle i j (wsubdivs + 1), ur_triangle i j (wsubdivs + 1)])).length =
        wsubdivs * 2 := fun i =>
      length_flatMap_range wsubdivs 2 _ (fun j => rfl)
    have ht := length_flatMap_range hsubdivs (wsubdivs * 2)
      (fun i => (List.range wsubdivs).flatMap (fun j =>
        [dl_triangle i j (wsubdivs + 1), ur_triangle i j (wsubdivs + 1)]))
      hin
    calc (add_quad_mesh w h wsubdivs hsubdivs).triangles.length
        = hsubdivs * (wsubdivs * 2) := ht
      _ = 2 * wsubdivs * hsubdivs := by ring

/-- C8 witness: the spec's end-to-end example — width 2, height 2, 4×4
subdivisions yield 25 vertices and 32 triangles. -/
theorem c8_add_quad_counts_witness :
    0 < 4 ∧
    (add_quad_mesh 2 2 4 4).vertices.length = 25 ∧
    (add_quad_mesh 2 2 4 4).triangles.length = 32 := by
  have h := c8_add_quad_counts 2 2 4 4 (by norm_num) (by norm_num)
  exact ⟨by norm_num, h.1.trans (by norm_num), h.2.trans (by norm_num)⟩

/-- update_projviews does not touch the pitch. -/
theorem update_projviews_pitch (P : MathPrims M I) (s : FirstPerson M I) :
    (s.update_projviews P).pitch = s.pitch :=
  rfl

/-- The clamped pitch lies in the closed interval [0.0001, π₃₂ − 0.0001];
both endpoints are produced by the clamp itself when the incoming pitch
lies outside. -/
theorem clampPitch_mem (p : ℚ) :
    (0.0001 : ℚ) ≤ clampPitch p ∧ clampPitch p ≤ pi32 - 0.0001 := by
  have hcp : clampPitch p =
      if (if p ≤ 0.0001 then (0.0001 : ℚ) else p) > pi32 - 0.0001 then
        pi32 - 0.0001
      else (if p ≤ 0.0001 then (0.0001 : ℚ) else p) := rfl
  rw [hcp]
  have hno : ¬ ((0.0001 : ℚ) > pi32 - 0.0001) := by norm_num [pi32]
  by_cases h1 : p ≤ 0.0001
  · rw [if_pos h1, if_neg hno]
    refine ⟨le_refl _, ?_⟩
    norm_num [pi32]
  · rw [if_neg h1]
    have h1l : (0.0001 : ℚ) < p := lt_of_not_le h1
    by_cases h2 : p > pi32 - 0.0001
    · rw [if_pos h2]
      refine ⟨?_, le_refl _⟩
      norm_num [pi32]
    · rw [if_neg h2]
      exact ⟨le_of_lt h1l, le_of_not_lt h2⟩

/-- After a clamp, the camera's pitch lies in the closed interval. -/
theorem update_restrictions_pitch_mem (s : FirstPerson M I) :
    (0.0001 : ℚ) ≤ s.update_restrictions.pitch ∧
    s.update_restrictions.pitch ≤ pi32 - 0.0001 :=
  clampPitch_mem s.pitch

/-- A left drag always leaves the pitch inside the closed clamp
interval. -/
theorem handle_left_pitch_mem (P : MathPrims M I) (s : FirstPerson M I)
    (d : V2) :
    (0.0001 : ℚ) ≤ (s.handle_left_button_displacement P d).pitch ∧
    (s.handle_left_button_displacement P d).pitch ≤ pi32 - 0.0001 := by
  unfold FirstPerson.handle_left_button_displacement
  rw [update_projviews_pitch]
  exact update_restrictions_pitch_mem _

/-- Folding further left drags preserves membership (each drag
re-establishes it). -/
theorem foldl_handle_left_pitch_mem (P : MathPrims M I) (l : List V2) :
    ∀ (s : FirstPerson M I) (d : V2),
      (0.0001 : ℚ) ≤
        (l.foldl (FirstPerson.handle_left_button_displacement P)
          (s.handle_left_button_displacement P d)).pitch ∧
      (l.foldl (FirstPerson.handle_left_button_displacement P)
          (s.handle_left_button_displacement P d)).pitch ≤ pi32 - 0.0001 := by
  induction l with
  | nil => intro s d; simpa using handle_left_pitch_mem P s d
  | cons e l ih =>
      intro s d
      rw [List.foldl_cons]
      exact ih (s.handle_left_button_displacement P d) e

/-- C1 (amended): after any nonempty sequence of left-drag displacements,
the first-person camera's pitch lies within the CLOSED interval
[ε, π−ε] with ε = 0.0001 (the clamp makes both endpoints attainable, so
the open interval of the original claim fails). -/
theorem c1_pitch_closed_interval (P : MathPrims M I) (s : FirstPerson M I)
    (l : List V2) (hl : l ≠ []) :
    (0.0001 : ℚ) ≤
      (l.foldl (FirstPerson.handle_left_button_displacement P) s).pitch ∧
    (l.foldl (FirstPerson.handle_left_button_displacement P) s).pitch ≤
      pi32 - 0.0001 := by
  obtain ⟨d, l, rfl⟩ := List.exists_cons_of_ne_nil hl
  rw [List.foldl_cons]
  exact foldl_handle_left_pitch_mem P l s d

/-- C1 witness: one concrete drag on a concrete camera lands the pitch in
the closed interval. -/
theorem c1_pitch_closed_interval_witness :
    ([({ x := 0, y := 0 } : V2)] ≠ []) ∧
    ((0.0001 : ℚ) ≤
      ([({ x := 0, y := 0 } : V2)].foldl
        (FirstPerson.handle_left_button_displacement trivPrims) demoCam).pitch ∧
    ([({ x := 0, y := 0 } : V2)].foldl
        (FirstPerson.handle_left_button_displacement trivPrims) demoCam).pitch ≤
      pi32 - 0.0001) := by
  refine ⟨by simp, ?_⟩
  exact c1_pitch_closed_interval trivPrims demoCam [{ x := 0, y := 0 }]
    (by simp)

/-- C1 counterexample: a single strong downward drag clamps the pitch to
exactly ε = 0.0001, so the pitch does NOT remain strictly inside the open
interval (ε, π−ε). -/
theorem c1_open_interval_counterexample :
    (demoCam.handle_left_button_displacement trivPrims
        { x := 0, y := -1000000 }).pitch = 0.0001 ∧
    ¬ ((0.0001 : ℚ) <
        (demoCam.handle_left_button_displacement trivPrims
          { x := 0, y := -1000000 }).pitch) := by
  have hp : (demoCam.handle_left_button_displacement trivPrims
      { x := 0, y := -1000000 }).pitch = 0.0001 := by
    unfold FirstPerson.handle_left_button_displacement
    rw [update_projviews_pitch]
    unfold FirstPerson.update_restrictions
    norm_num [demoCam, clampPitch, pi32]
  exact ⟨hp, by rw [hp]; norm_num⟩

/-- C2: every mutating FirstPerson operation — look_at_z, left drag, right
drag, scroll, the per-frame update, and the framebuffer-resize event —
recomputes the cached view-projection matrix and its inverse exactly once,
and no non-mutating query recomputes them. -/
theorem c2_projview_recompute_once (P : MathPrims M I) (o : CamOp)
    (s : FirstPerson M I) :
    (applyCamOp P o s).nProjviewUpdates =
      s.nProjviewUpdates + (if o.isMutating then 1 else 0) := by
  cases o <;>
    simp [applyCamOp, CamOp.isMutating, FirstPerson.look_at_z,
      FirstPerson.handle_left_button_displacement,
      FirstPerson.handle_right_button_displacement,
      FirstPerson.handle_scroll, FirstPerson.update,
      FirstPerson.handle_event, FirstPerson.update_projviews,
      FirstPerson.update_restrictions]

/-- C9: look_at_z assigns pitch = acos((at.y − eye.y)/dist) without any
clamp: aiming the camera straight up (at directly above eye) yields
pitch = acos 1 = 0, strictly below the lower clamp bound ε = 0.0001 that
every drag, scroll and per-frame update enforces. -/
theorem c9_look_at_z_unclamped (P : MathPrims M I) (s : FirstPerson M I)
    (hacos : P.acos 1 = 0)
    (hnorm : P.norm { x := 0, y := -1, z := 0 } = 1) :
    (s.look_at_z P { x := 0, y := 0, z := 0 } { x := 0, y := 1, z := 0 }).pitch
      = 0 ∧
    ¬ ((0.0001 : ℚ) ≤
      (s.look_at_z P { x := 0, y := 0, z := 0 }
        { x := 0, y := 1, z := 0 }).pitch) := by
  have hsub : V3.sub { x := 0, y := 0, z := 0 } { x := 0, y := 1, z := 0 } =
      ({ x := 0, y := -1, z := 0 } : V3) := by
    unfold V3.sub
    norm_num
  have hp : (s.look_at_z P { x := 0, y := 0, z := 0 }
      { x := 0, y := 1, z := 0 }).pitch = 0 := by
    show P.acos ((1 - 0) /
      P.norm (V3.sub { x := 0, y := 0, z := 0 } { x := 0, y := 1, z := 0 })) = 0
    rw [hsub, hnorm]
    norm_num [hacos]
  exact ⟨hp, by rw [hp]; norm_num⟩

/-- C9 witness: an interpretation agreeing with the real acos and norm on
the two relevant inputs, evaluated on the concrete camera. -/
theorem c9_look_at_z_unclamped_witness :
    unitPrims.acos 1 = 0 ∧
    unitPrims.norm { x := 0, y := -1, z := 0 } = 1 ∧
    (demoCam.look_at_z unitPrims { x := 0, y := 0, z := 0 }
      { x := 0, y := 1, z := 0 }).pitch = 0 := by
  refine ⟨rfl, rfl, ?_⟩
  exact (c9_look_at_z_unclamped unitPrims demoCam rfl rfl).1

/-- The per-event drain step equals the amended description of it. -/
theorem pollEventsStep_eq_amended
    (handler : PollWindow C → Event → PollWindow C × Bool)
    (camH : C → Event → C) :
    pollEventsStep handler camH = pollEventsAmendedStep handler camH := by
  funext acc e
  unfold pollEventsStep pollEventsAmendedStep
  cases e with
  | keyReleased k => cases k <;> simp
  | cursorPos x y => rfl
  | scroll x y => rfl
  | keyPressed k => rfl
  | buttonPressed b m => rfl
  | buttonReleased b m => rfl
  | framebufferSize a b => rfl

/-- C4 (amended): poll_events drains the queue in order — for each event
the user handler lets proceed, default handling is applied (escape release
requests close, resize updates the viewport and render target) and the
event is then forwarded to the camera, EXCEPT the escape release, which is
not forwarded (the source continues past the camera dispatch); finally the
event queue is cleared. -/
theorem c4_poll_events_amended
    (handler : PollWindow C → Event → PollWindow C × Bool)
    (camH : C → Event → C) (w : PollWindow C) :
    poll_events handler camH w = poll_events_amended handler camH w ∧
    (poll_events handler camH w).events = [] := by
  constructor
  · unfold poll_events poll_events_amended
    rw [pollEventsStep_eq_amended]
  · rfl

/-- C4 counterexample: with one queued escape release and a handler that
always proceeds, the code does not forward the event to the camera (the
camera state is untouched), while the claim's description forwards it. -/
theorem c4_escape_not_forwarded :
    (poll_events (fun w _ => (w, true)) (fun c _ => c + 1) c4Window).camera
      = 0 ∧
    (poll_events_claimed (fun w _ => (w, true)) (fun c _ => c + 1)
      c4Window).camera = 1 ∧
    poll_events (fun w _ => (w, true)) (fun c _ => c + 1) c4Window ≠
      poll_events_claimed (fun w _ => (w, true)) (fun c _ => c + 1)
        c4Window := by
  refine ⟨rfl, rfl, ?_⟩
  intro h
  have := congrArg PollWindow.camera h
  simp [poll_events, poll_events_claimed, pollEventsStep,
    pollEventsClaimStep, c4Window] at this

end Kiss3d
